import Mathlib

/-!
Shallow embedding of the HostAgent task-delegation component of this
repository (`agents/orchestrate/host_agent.py`): the `send_task` tool, the
part-conversion helpers `convert_parts` / `convert_part`, and the session
state they mutate.  Python exceptions are modelled with `Except`; the mutable
`tool_context.state` dict and `tool_context.actions` flags are threaded
explicitly; the `uuid.uuid4()` draws are passed in as parameters.
-/

namespace Host

/-- Task lifecycle states (`common.types.TaskState` as used by
`host_agent.py`). -/
inductive TaskState where
  | submitted
  | working
  | inputRequired
  | completed
  | canceled
  | failed
  | unknown
  deriving DecidableEq, Repr

/-- Structured payload of a data part, modelled as a JSON-like string map. -/
abbrev PyData := List (String × String)

/-- File payload of a file part (`part.file`): name, mime type and optional
base64-encoded bytes. -/
structure FileContent where
  name : String
  mimeType : String
  bytes : Option String
  deriving DecidableEq, Repr

/-- One response payload part: the variants dispatched on by `convert_part`
via the `part.type` string (text / data / file), plus a constructor for any
unrecognized `part.type`. -/
inductive Part where
  | text (t : String)
  | data (d : PyData)
  | file (f : FileContent)
  | other (typeName : String)
  deriving DecidableEq, Repr

/-- A protocol message: `role` plus a list of parts. -/
structure Msg where
  role : String
  parts : List Part
  deriving DecidableEq, Repr

/-- The `task.status` object: lifecycle state plus optional status message. -/
structure TaskStatus where
  state : TaskState
  message : Option Msg
  deriving DecidableEq, Repr

/-- One artifact of a task response: a list of parts. -/
structure Artifact where
  parts : List Part
  deriving DecidableEq, Repr

/-- The task object returned by the remote agent.  `status` is an `Option` to
model the `if task and task.status` truthiness check in `send_task`; an
absent or empty `artifacts` list is modelled by `[]`. -/
structure Task where
  id : String
  status : Option TaskStatus
  artifacts : List Artifact
  deriving DecidableEq, Repr

/-- The ADK side-channel flags set through `tool_context.actions`. -/
structure Actions where
  skip_summarization : Bool := false
  escalate : Bool := false
  deriving DecidableEq, Repr

/-- Both action flags set, as after the two assignments
`tool_context.actions.skip_summarization = True` and
`tool_context.actions.escalate = True`. -/
def bothFlags : Actions :=
  { skip_summarization := true, escalate := true }

/-- The mutable session state dict (`tool_context.state`); a key missing from
the dict is modelled by `none`. -/
structure SessionState where
  agent : Option String := none
  session_id : Option String := none
  task_id : Option String := none
  session_active : Option Bool := none
  input_message_metadata : List (String × String) := []
  deriving DecidableEq, Repr

/-- Tool-context state mutated by part conversion: the action flags and the
artifacts saved via `tool_context.save_artifact`. -/
structure ToolContextState where
  actions : Actions := {}
  artifacts : List (String × List Nat) := []
  deriving DecidableEq, Repr

/-- Value of one base64 alphabet character; `none` for a character outside
the alphabet. -/
def b64charVal (c : Char) : Option Nat :=
  if ('A' ≤ c ∧ c ≤ 'Z') then some (c.toNat - 65)
  else if ('a' ≤ c ∧ c ≤ 'z') then some (c.toNat - 97 + 26)
  else if ('0' ≤ c ∧ c ≤ '9') then some (c.toNat - 48 + 52)
  else if c = '+' then some 62
  else if c = '/' then some 63
  else none

/-- Decode base64 characters in groups of four, allowing trailing padding;
`none` when the input length is not a multiple of four or the padding is
malformed, modelling the `binascii.Error` raised by `base64.b64decode`. -/
def b64decodeChars : List Char → Option (List Nat)
  | [] => some []
  | c1 :: c2 :: c3 :: c4 :: rest =>
    match b64charVal c1, b64charVal c2 with
    | some a, some b =>
      if c3 = '=' then
        if c4 = '=' ∧ rest = [] then some [a * 4 + b / 16] else none
      else
        match b64charVal c3 with
        | some c =>
          if c4 = '=' then
            if rest = [] then some [a * 4 + b / 16, b % 16 * 16 + c / 4] else none
          else
            match b64charVal c4 with
            | some d =>
              (b64decodeChars rest).map
                (fun tl =>
                  (a * 4 + b / 16) :: (b % 16 * 16 + c / 4) :: (c % 4 * 64 + d) :: tl)
            | none => none
        | none => none
    | _, _ => none
  | _ => none

/-- Model of `base64.b64decode` on a Python `str`: characters outside the
base64 alphabet and the padding character are discarded, then the rest is
decoded; `none` models a raised `binascii.Error`. -/
def b64decode (s : String) : Option (List Nat) :=
  b64decodeChars (s.data.filter (fun c => (b64charVal c).isSome || (c == '=')))

/-- A value produced by `convert_part`: either a plain string or a `DataPart`
payload (the Python return type is `str | DataPart`). -/
inductive Converted where
  | str (s : String)
  | dataPart (d : PyData)
  deriving DecidableEq, Repr

/-- Embedding of `convert_part(part, tool_context)`: converts one part to a
string or a `DataPart`, threading the tool-context state.  `Except.error`
would model an uncaught Python exception escaping the function; the one
fallible step (base64 decoding in the file branch) is wrapped in try/except
in the source, which returns an error-placeholder string instead of
propagating, so every branch below ends in `Except.ok`. -/
def convert_part (part : Part) (ctx : ToolContextState) :
    Except String (ToolContextState × Converted) :=
  match part with
  | .text t => .ok (ctx, .str t)
  | .data d => .ok (ctx, .dataPart d)
  | .file f =>
    let file_id := f.name
    match f.bytes with
    | some b =>
      match b64decode b with
      | some file_bytes =>
        let ctx2 : ToolContextState :=
          { actions := bothFlags,
            artifacts := ctx.artifacts ++ [(file_id, file_bytes)] }
        .ok (ctx2, .dataPart [("artifact-file-id", file_id)])
      | none =>
        .ok (ctx, .str ("Error processing file " ++ file_id ++ ": Invalid data."))
    | none =>
      .ok (ctx, .str ("File " ++ file_id ++ " available, but no content."))
  | .other typeName => .ok (ctx, .str ("Unknown part type: " ++ typeName))

/-- Embedding of `convert_parts(parts, tool_context)`: converts each part in
order and collects the values (the `is not None` filter in the source never
fires, since every branch of `convert_part` returns a value). -/
def convert_parts (parts : List Part) (ctx : ToolContextState) :
    Except String (ToolContextState × List Converted) :=
  match parts with
  | [] => .ok (ctx, [])
  | p :: ps => do
    let (ctx1, v) ← convert_part p ctx
    let (ctx2, vs) ← convert_parts ps ctx1
    .ok (ctx2, v :: vs)

/-- Errors raised by `send_task` (all `ValueError` in the source,
distinguished here by which `raise` produced them), plus a constructor for a
propagated exception from part conversion. -/
inductive SendTaskError where
  | unknownAgent (agent_name : String)
  | taskCanceled (agent_name : String) (task_id : String) (reason : String)
  | taskFailed (agent_name : String) (task_id : String) (reason : String)
  | raisedExn (msg : String)
  deriving DecidableEq, Repr

/-- First part with `part.type == "text"` in a list of parts, if any (the
repeated `for part in ...: if part.type == "text" ...: break` loop of
`send_task`). -/
def firstTextPart : List Part → Option String
  | [] => none
  | .text t :: _ => some t
  | _ :: ps => firstTextPart ps

/-- The text found by the loop guarded by
`if task.status.message and task.status.message.parts`. -/
def firstText : Option Msg → Option String
  | some m => firstTextPart m.parts
  | none => none

/-- Reason extraction for the CANCELED and FAILED raises: the first text part
of the status message, defaulting to the literal string written in the source
(note its trailing period). -/
def extractReason (m : Option Msg) : String :=
  match firstText m with
  | some t => t
  | none => "Unknown."

/-- The request constructed by `send_task` (`TaskSendParams`); the constant
`acceptedOutputModes` list is carried verbatim. -/
structure TaskSendParams where
  id : String
  sessionId : String
  messageRole : String
  messageParts : List Part
  messageMetadata : List (String × String)
  acceptedOutputModes : List String
  metadata : List (String × String)
  deriving DecidableEq, Repr

/-- The `TaskSendParams` record built by `send_task` from the session state
(after the `state[agent]` write) and the message text; `freshTaskId`,
`freshSessionId` and `freshMessageId` stand for the `uuid.uuid4()` draws. -/
def mkRequest (message freshTaskId freshSessionId freshMessageId : String)
    (st1 : SessionState) : TaskSendParams :=
  { id := st1.task_id.getD freshTaskId,
    sessionId := st1.session_id.getD freshSessionId,
    messageRole := "user",
    messageParts := [.text message],
    messageMetadata :=
      [("conversation_id", st1.session_id.getD freshSessionId),
       ("message_id", freshMessageId)] ++ st1.input_message_metadata,
    acceptedOutputModes := ["text", "text/plain", "image/png"],
    metadata := [("conversation_id", st1.session_id.getD freshSessionId)] }

/-- The extra element appended in the INPUT_REQUIRED branch: the first text
part of the status message, when there is one. -/
def irExtra (msg : Option Msg) : List Converted :=
  match firstText msg with
  | some s => [Converted.str s]
  | none => []

/-- The list `[COMPLETED, CANCELED, FAILED, UNKNOWN]` tested by
`task.status.state not in [...]` when `send_task` updates
`session_active`. -/
def terminalStates : List TaskState :=
  [.completed, .canceled, .failed, .unknown]

/-- The fixed prompt appended in the INPUT_REQUIRED branch of `send_task`. -/
def inputRequiredPrompt (agent_name : String) : String :=
  "The agent \x27" ++ agent_name ++
    "\x27 requires more input to proceed. Please provide further details."

/-- The diagnostic appended when the task object or its status is missing. -/
def invalidTaskDiag (agent_name : String) : Converted :=
  .str ("The remote agent \x27" ++ agent_name ++
    "\x27 did not return a valid task status. The task might not have been initiated successfully.")

deriving instance DecidableEq for Except

/-- Observable outcome of one `send_task` call: the session state and
tool-context state after the call (Python mutates these in place, so they are
defined even when the call raises), the returned list or raised error, and
the request sent to the remote agent (`none` when no network call was
made). -/
structure SendOutcome where
  state : SessionState
  actions : Actions
  artifacts : List (String × List Nat)
  result : Except SendTaskError (List Converted)
  request : Option TaskSendParams
  deriving DecidableEq, Repr

/-- The `for artifact in task.artifacts` loop at the end of `send_task`:
flattens each artifact through `convert_parts`. -/
def convertArtifactList (arts : List Artifact) (ctx : ToolContextState) :
    Except String (ToolContextState × List Converted) :=
  match arts with
  | [] => .ok (ctx, [])
  | a :: rest => do
    let (ctx1, vs1) ← convert_parts a.parts ctx
    let (ctx2, vs2) ← convertArtifactList rest ctx1
    .ok (ctx2, vs1 ++ vs2)

/-- The final flattening of `send_task` (the lines guarded by
`if task and task.status and task.status.message` and by
`if task and task.artifacts`): converts the status-message parts, then every
artifact. -/
def flattenTask (task : Option Task) (ctx : ToolContextState) :
    Except String (ToolContextState × List Converted) := do
  let (ctx1, vs1) ←
    (match task with
     | some t =>
       match t.status with
       | some status =>
         match status.message with
         | some m => convert_parts m.parts ctx
         | none => Except.ok (ctx, [])
       | none => Except.ok (ctx, [])
     | none => Except.ok (ctx, []))
  let (ctx2, vs2) ←
    (match task with
     | some t => convertArtifactList t.artifacts ctx1
     | none => Except.ok (ctx1, []))
  Except.ok (ctx2, vs1 ++ vs2)

/-- Tail of `send_task` after the state branch: runs the final flattening
over the (possibly absent) task and returns the accumulated response list
followed by the flattened parts; a conversion exception would propagate as a
raised error. -/
def mkOutcome (st : SessionState) (ctx : ToolContextState)
    (response : List Converted) (task : Option Task)
    (request : TaskSendParams) : SendOutcome :=
  match flattenTask task ctx with
  | .ok (ctx2, vs) =>
    { state := st, actions := ctx2.actions, artifacts := ctx2.artifacts,
      result := .ok (response ++ vs), request := some request }
  | .error e =>
    { state := st, actions := ctx.actions, artifacts := ctx.artifacts,
      result := .error (.raisedExn e), request := some request }

/-- Embedding of `HostAgent.send_task(agent_name, message, tool_context)`.

`registry` is the key set of `self.remote_agent_connections`; `remote` is the
task object returned by `await client.send_task(request, ...)` for this call;
`freshTaskId`, `freshSessionId` and `freshMessageId` are the `uuid.uuid4()`
values drawn when the corresponding ids have to be generated. -/
def send_task (registry : List String) (remote : Option Task)
    (agent_name message freshTaskId freshSessionId freshMessageId : String)
    (st0 : SessionState) (ctx0 : ToolContextState) : SendOutcome :=
  if agent_name ∈ registry then
    let st1 : SessionState := { st0 with agent := some agent_name }
    let taskId := st1.task_id.getD freshTaskId
    let request : TaskSendParams :=
      mkRequest message freshTaskId freshSessionId freshMessageId st1
    let task := remote
    match task with
    | some t =>
      match t.status with
      | some status =>
        let st2 : SessionState :=
          { st1 with
            session_active := some (decide (status.state ∉ terminalStates)) }
        match status.state with
        | .inputRequired =>
          let response : List Converted :=
            Converted.str (inputRequiredPrompt agent_name)
              :: irExtra status.message
          mkOutcome st2 { actions := bothFlags, artifacts := ctx0.artifacts }
            response task request
        | .canceled =>
          { state := st2, actions := ctx0.actions, artifacts := ctx0.artifacts,
            result := .error
              (.taskCanceled agent_name t.id (extractReason status.message)),
            request := some request }
        | .failed =>
          { state := st2, actions := ctx0.actions, artifacts := ctx0.artifacts,
            result := .error
              (.taskFailed agent_name t.id (extractReason status.message)),
            request := some request }
        | _ =>
          let st3 : SessionState := { st2 with task_id := some taskId }
          mkOutcome st3 ctx0 [] task request
      | none =>
        let st2 : SessionState := { st1 with session_active := some false }
        mkOutcome st2 ctx0 [invalidTaskDiag agent_name] task request
    | none =>
      let st2 : SessionState := { st1 with session_active := some false }
      mkOutcome st2 ctx0 [invalidTaskDiag agent_name] none request
  else
    { state := st0, actions := ctx0.actions, artifacts := ctx0.artifacts,
      result := .error (.unknownAgent agent_name), request := none }

/-- The parts of an optional status message (empty when the message is
absent), as read by the final flattening of `send_task`. -/
def messageParts : Option Msg → List Part
  | some m => m.parts
  | none => []

/-- Helper: reduction of a monadic bind on a successful `Except` value. -/
theorem except_bind_ok {ε α β : Type} (a : α) (f : α → Except ε β) :
    (Except.ok a : Except ε α) >>= f = f a := rfl

/-- Helper: every branch of `convert_part` produces a value, and a tool
context whose two action flags are both set keeps them both set. -/
theorem convert_part_ok (p : Part) (ctx : ToolContextState) :
    ∃ ctx2 v, convert_part p ctx = .ok (ctx2, v) ∧
      (ctx.actions = bothFlags → ctx2.actions = bothFlags) := by
  cases p with
  | text t => exact ⟨ctx, .str t, rfl, fun h => h⟩
  | data d => exact ⟨ctx, .dataPart d, rfl, fun h => h⟩
  | file f =>
    cases f with
    | mk name mt bytes =>
      cases bytes with
      | none =>
        exact ⟨ctx, .str ("File " ++ name ++ " available, but no content."),
          rfl, fun h => h⟩
      | some b =>
        cases hd : b64decode b with
        | none =>
          exact ⟨ctx, .str ("Error processing file " ++ name ++ ": Invalid data."),
            by simp [convert_part, hd], fun h => h⟩
        | some bs =>
          exact ⟨{ actions := bothFlags, artifacts := ctx.artifacts ++ [(name, bs)] },
            .dataPart [("artifact-file-id", name)],
            by simp [convert_part, hd], fun _ => rfl⟩
  | other ty => exact ⟨ctx, .str ("Unknown part type: " ++ ty), rfl, fun h => h⟩

/-- Helper: `convert_parts` produces a value on every input, preserving
fully-set action flags. -/
theorem convert_parts_ok (parts : List Part) (ctx : ToolContextState) :
    ∃ ctx2 vs, convert_parts parts ctx = .ok (ctx2, vs) ∧
      (ctx.actions = bothFlags → ctx2.actions = bothFlags) := by
  induction parts generalizing ctx with
  | nil => exact ⟨ctx, [], rfl, fun h => h⟩
  | cons p ps ih =>
    obtain ⟨ctx1, v, h1, hf1⟩ := convert_part_ok p ctx
    obtain ⟨ctx2, vs, h2, hf2⟩ := ih ctx1
    refine ⟨ctx2, v :: vs, ?_, fun h => hf2 (hf1 h)⟩
    simp [convert_parts, h1, h2, except_bind_ok]

/-- Helper: the artifact-flattening loop produces a value on every input,
preserving fully-set action flags. -/
theorem convertArtifactList_ok (arts : List Artifact) (ctx : ToolContextState) :
    ∃ ctx2 vs, convertArtifactList arts ctx = .ok (ctx2, vs) ∧
      (ctx.actions = bothFlags → ctx2.actions = bothFlags) := by
  induction arts generalizing ctx with
  | nil => exact ⟨ctx, [], rfl, fun h => h⟩
  | cons a rest ih =>
    obtain ⟨ctx1, vs1, h1, hf1⟩ := convert_parts_ok a.parts ctx
    obtain ⟨ctx2, vs2, h2, hf2⟩ := ih ctx1
    refine ⟨ctx2, vs1 ++ vs2, ?_, fun h => hf2 (hf1 h)⟩
    simp [convertArtifactList, h1, h2, except_bind_ok]

/-- Helper: the final flattening produces a value on every input, preserving
fully-set action flags. -/
theorem flattenTask_ok (task : Option Task) (ctx : ToolContextState) :
    ∃ ctx2 vs, flattenTask task ctx = .ok (ctx2, vs) ∧
      (ctx.actions = bothFlags → ctx2.actions = bothFlags) := by
  cases task with
  | none => exact ⟨ctx, [], rfl, fun h => h⟩
  | some t =>
    obtain ⟨tid, status, arts⟩ := t
    cases status with
    | none =>
      obtain ⟨ctx2, vs2, h2, hf2⟩ := convertArtifactList_ok arts ctx
      exact ⟨ctx2, vs2, by simp [flattenTask, h2, except_bind_ok], hf2⟩
    | some stt =>
      obtain ⟨s, msg⟩ := stt
      cases msg with
      | none =>
        obtain ⟨ctx2, vs2, h2, hf2⟩ := convertArtifactList_ok arts ctx
        exact ⟨ctx2, vs2, by simp [flattenTask, h2, except_bind_ok], hf2⟩
      | some m =>
        obtain ⟨ctx1, vs1, h1, hf1⟩ := convert_parts_ok m.parts ctx
        obtain ⟨ctx2, vs2, h2, hf2⟩ := convertArtifactList_ok arts ctx1
        exact ⟨ctx2, vs1 ++ vs2, by simp [flattenTask, h1, h2, except_bind_ok],
          fun h => hf2 (hf1 h)⟩

/-- Helper: the flattening over a task with a present status, expressed by
the two conversion passes it is built from. -/
theorem flattenTask_eq (tid : String) (s : TaskState) (msg : Option Msg)
    (arts : List Artifact) (ctx : ToolContextState)
    {ctxA ctxB : ToolContextState} {vs1 vs2 : List Converted}
    (h1 : convert_parts (messageParts msg) ctx = .ok (ctxA, vs1))
    (h2 : convertArtifactList arts ctxA = .ok (ctxB, vs2)) :
    flattenTask (some ⟨tid, some ⟨s, msg⟩, arts⟩) ctx = .ok (ctxB, vs1 ++ vs2) := by
  cases msg with
  | none =>
    simp only [messageParts, convert_parts, Except.ok.injEq, Prod.mk.injEq] at h1
    obtain ⟨hA, hV⟩ := h1
    subst hA; subst hV
    simp [flattenTask, h2, except_bind_ok]
  | some m =>
    simp only [messageParts] at h1
    simp [flattenTask, h1, h2, except_bind_ok]

/-- Helper: the record produced by `mkOutcome` when the flattening succeeds. -/
theorem mkOutcome_eq (st : SessionState) (ctx : ToolContextState)
    (response : List Converted) (task : Option Task) (request : TaskSendParams)
    {ctx2 : ToolContextState} {vs : List Converted}
    (h : flattenTask task ctx = .ok (ctx2, vs)) :
    mkOutcome st ctx response task request =
      { state := st, actions := ctx2.actions, artifacts := ctx2.artifacts,
        result := .ok (response ++ vs), request := some request } := by
  simp [mkOutcome, h]

/-- Helper: `mkOutcome` always records the request it was given. -/
theorem mkOutcome_request (st : SessionState) (ctx : ToolContextState)
    (response : List Converted) (task : Option Task) (request : TaskSendParams) :
    (mkOutcome st ctx response task request).request = some request := by
  obtain ⟨ctx2, vs, h, _⟩ := flattenTask_ok task ctx
  simp [mkOutcome, h]

/-- Helper: `mkOutcome` always carries the session state it was given. -/
theorem mkOutcome_state (st : SessionState) (ctx : ToolContextState)
    (response : List Converted) (task : Option Task) (request : TaskSendParams) :
    (mkOutcome st ctx response task request).state = st := by
  obtain ⟨ctx2, vs, h, _⟩ := flattenTask_ok task ctx
  simp [mkOutcome, h]

/-- Helper: peeling a successful `convert_parts` run on a cons cell. -/
theorem convert_parts_cons (p : Part) (ps : List Part) (ctx : ToolContextState)
    {ctx2 : ToolContextState} {vs : List Converted}
    (h : convert_parts (p :: ps) ctx = .ok (ctx2, vs)) :
    ∃ ctx1 v vs2, convert_part p ctx = .ok (ctx1, v) ∧
      convert_parts ps ctx1 = .ok (ctx2, vs2) ∧ vs = v :: vs2 := by
  obtain ⟨ctx1, v, h1, _⟩ := convert_part_ok p ctx
  obtain ⟨ctxB, vs2, h2, _⟩ := convert_parts_ok ps ctx1
  have hcalc : convert_parts (p :: ps) ctx = .ok (ctxB, v :: vs2) := by
    simp [convert_parts, h1, h2, except_bind_ok]
  rw [h] at hcalc
  simp only [Except.ok.injEq, Prod.mk.injEq] at hcalc
  obtain ⟨hc, hv⟩ := hcalc
  exact ⟨ctx1, v, vs2, h1, by rw [hc]; exact h2, hv⟩

/-- Helper: a part list whose first text part carries `s` converts to a value
list in which the string `s` occurs. -/
theorem convert_parts_firstText_split (parts : List Part) (s : String)
    (ctx : ToolContextState) {ctx2 : ToolContextState} {vs : List Converted}
    (hft : firstTextPart parts = some s)
    (h : convert_parts parts ctx = .ok (ctx2, vs)) :
    ∃ l1 l2, vs = l1 ++ Converted.str s :: l2 := by
  induction parts generalizing ctx ctx2 vs with
  | nil => simp [firstTextPart] at hft
  | cons p ps ih =>
    obtain ⟨ctx1, v, vs2, h1, h2, hv⟩ := convert_parts_cons p ps ctx h
    cases p with
    | text t =>
      have ht : t = s := by simpa [firstTextPart] using hft
      have hvv : v = .str t := by
        have hrfl : convert_part (.text t) ctx = .ok (ctx, .str t) := rfl
        rw [hrfl] at h1
        simp only [Except.ok.injEq, Prod.mk.injEq] at h1
        exact h1.2.symm
      exact ⟨[], vs2, by rw [hv, hvv, ht]; rfl⟩
    | data d =>
      have hft2 : firstTextPart ps = some s := by simpa [firstTextPart] using hft
      obtain ⟨l1, l2, hsplit⟩ := ih ctx1 hft2 h2
      exact ⟨v :: l1, l2, by rw [hv, hsplit]; rfl⟩
    | file f =>
      have hft2 : firstTextPart ps = some s := by simpa [firstTextPart] using hft
      obtain ⟨l1, l2, hsplit⟩ := ih ctx1 hft2 h2
      exact ⟨v :: l1, l2, by rw [hv, hsplit]; rfl⟩
    | other ty =>
      have hft2 : firstTextPart ps = some s := by simpa [firstTextPart] using hft
      obtain ⟨l1, l2, hsplit⟩ := ih ctx1 hft2 h2
      exact ⟨v :: l1, l2, by rw [hv, hsplit]; rfl⟩

/-- Helper: for a registered agent, `send_task` always sends the request
built by `mkRequest` from the updated session state. -/
theorem send_task_sends_request (registry : List String) (remote : Option Task)
    (agent_name message ftid fsid fmid : String)
    (st0 : SessionState) (ctx0 : ToolContextState)
    (hreg : agent_name ∈ registry) :
    (send_task registry remote agent_name message ftid fsid fmid st0 ctx0).request =
      some (mkRequest message ftid fsid fmid { st0 with agent := some agent_name }) := by
  cases remote with
  | none => simp [send_task, hreg, mkOutcome_request]
  | some t =>
    obtain ⟨tid, status, arts⟩ := t
    cases status with
    | none => simp [send_task, hreg, mkOutcome_request]
    | some stt =>
      obtain ⟨s, msg⟩ := stt
      cases s <;> simp [send_task, hreg, mkOutcome_request]

/-- Helper: in the branch for states other than INPUT_REQUIRED, CANCELED and
FAILED, `send_task` stores the used task id and the terminal-set test result
in the session state. -/
theorem send_task_else_state (registry : List String)
    (agent_name message ftid fsid fmid tid : String) (s : TaskState)
    (msg : Option Msg) (arts : List Artifact)
    (st0 : SessionState) (ctx0 : ToolContextState)
    (hreg : agent_name ∈ registry)
    (h1 : s ≠ .inputRequired) (h2 : s ≠ .canceled) (h3 : s ≠ .failed) :
    (send_task registry (some ⟨tid, some ⟨s, msg⟩, arts⟩)
        agent_name message ftid fsid fmid st0 ctx0).state =
      { st0 with
        agent := some agent_name
        session_active := some (decide (s ∉ terminalStates))
        task_id := some (st0.task_id.getD ftid) } := by
  cases s
  case inputRequired => exact absurd rfl h1
  case canceled => exact absurd rfl h2
  case failed => exact absurd rfl h3
  all_goals simp [send_task, hreg, mkOutcome_state, terminalStates]

/-- Helper: in the branch for states other than INPUT_REQUIRED, CANCELED and
FAILED, the result of `send_task` is exactly the flattened parts. -/
theorem send_task_else_result (registry : List String)
    (agent_name message ftid fsid fmid tid : String) (s : TaskState)
    (msg : Option Msg) (arts : List Artifact)
    (st0 : SessionState) (ctx0 : ToolContextState)
    (hreg : agent_name ∈ registry)
    (h1 : s ≠ .inputRequired) (h2 : s ≠ .canceled) (h3 : s ≠ .failed)
    {ctxB : ToolContextState} {vs : List Converted}
    (hflat : flattenTask (some ⟨tid, some ⟨s, msg⟩, arts⟩) ctx0 = .ok (ctxB, vs)) :
    (send_task registry (some ⟨tid, some ⟨s, msg⟩, arts⟩)
        agent_name message ftid fsid fmid st0 ctx0).result = .ok vs := by
  cases s
  case inputRequired => exact absurd rfl h1
  case canceled => exact absurd rfl h2
  case failed => exact absurd rfl h3
  all_goals simp [send_task, hreg, mkOutcome, hflat]

/-- C1 (amended): for a registered agent, a task response in state CANCELED
raises the task-canceled error and one in state FAILED the task-failed
error, never an ok result list; the carried reason string is the first text
part of the status message, or the literal "Unknown." (with a trailing
period) when no text part is present. -/
theorem send_task_canceled_failed_raise (registry : List String)
    (agent_name message ftid fsid fmid tid : String) (msg : Option Msg)
    (arts : List Artifact) (st0 : SessionState) (ctx0 : ToolContextState)
    (hreg : agent_name ∈ registry) :
    ((send_task registry (some ⟨tid, some ⟨.canceled, msg⟩, arts⟩)
        agent_name message ftid fsid fmid st0 ctx0).result =
      .error (.taskCanceled agent_name tid (extractReason msg)))
    ∧ ((send_task registry (some ⟨tid, some ⟨.failed, msg⟩, arts⟩)
        agent_name message ftid fsid fmid st0 ctx0).result =
      .error (.taskFailed agent_name tid (extractReason msg)))
    ∧ (∀ vs, (send_task registry (some ⟨tid, some ⟨.canceled, msg⟩, arts⟩)
        agent_name message ftid fsid fmid st0 ctx0).result ≠ .ok vs)
    ∧ (∀ vs, (send_task registry (some ⟨tid, some ⟨.failed, msg⟩, arts⟩)
        agent_name message ftid fsid fmid st0 ctx0).result ≠ .ok vs)
    ∧ (firstText msg = none → extractReason msg = "Unknown.")
    ∧ (∀ s, firstText msg = some s → extractReason msg = s) := by
  refine ⟨?_, ?_, ?_, ?_, ?_, ?_⟩
  · simp [send_task, hreg]
  · simp [send_task, hreg]
  · intro vs; simp [send_task, hreg]
  · intro vs; simp [send_task, hreg]
  · intro h; simp [extractReason, h]
  · intro s h; simp [extractReason, h]

/-- C1 witness: a concrete CANCELED response whose status message holds the
text part "boom" raises the cancel error with reason "boom". -/
theorem send_task_canceled_failed_raise_witness :
    (send_task ["A"]
        (some ⟨"t1", some ⟨.canceled, some ⟨"agent", [Part.text "boom"]⟩⟩, []⟩)
        "A" "m" "f" "s" "g" {} {}).result =
      .error (.taskCanceled "A" "t1"
        (extractReason (some ⟨"agent", [Part.text "boom"]⟩))) :=
  (send_task_canceled_failed_raise ["A"] "A" "m" "f" "s" "g" "t1"
    (some ⟨"agent", [Part.text "boom"]⟩) [] {} {} (by decide)).1

/-- C1 counterexample: when no text part is present the raised reason string
is the literal "Unknown." with a trailing period, not "Unknown" as the claim
states. -/
theorem send_task_canceled_reason_cex :
    (send_task ["A"] (some ⟨"t1", some ⟨.canceled, none⟩, []⟩)
        "A" "m" "f" "s" "g" {} {}).result =
      .error (.taskCanceled "A" "t1" "Unknown.")
    ∧ "Unknown." ≠ "Unknown" := by
  decide

/-- C2: for a registered agent, an INPUT_REQUIRED task response yields an ok
result list containing the fixed escalation prompt, sets both the escalate
and skip-summarization flags, and leaves `session_active` equal to true. -/
theorem send_task_input_required_ok (registry : List String)
    (agent_name message ftid fsid fmid tid : String) (msg : Option Msg)
    (arts : List Artifact) (st0 : SessionState) (ctx0 : ToolContextState)
    (hreg : agent_name ∈ registry) :
    (∃ vs, (send_task registry (some ⟨tid, some ⟨.inputRequired, msg⟩, arts⟩)
        agent_name message ftid fsid fmid st0 ctx0).result = .ok vs ∧
      Converted.str (inputRequiredPrompt agent_name) ∈ vs)
    ∧ (send_task registry (some ⟨tid, some ⟨.inputRequired, msg⟩, arts⟩)
        agent_name message ftid fsid fmid st0 ctx0).actions = bothFlags
    ∧ (send_task registry (some ⟨tid, some ⟨.inputRequired, msg⟩, arts⟩)
        agent_name message ftid fsid fmid st0 ctx0).state.session_active =
      some true := by
  obtain ⟨ctx2, vsf, hflat, hf⟩ :=
    flattenTask_ok (some ⟨tid, some ⟨.inputRequired, msg⟩, arts⟩)
      { actions := bothFlags, artifacts := ctx0.artifacts }
  have hsend :
      send_task registry (some ⟨tid, some ⟨.inputRequired, msg⟩, arts⟩)
          agent_name message ftid fsid fmid st0 ctx0 =
        mkOutcome
          { st0 with agent := some agent_name, session_active := some true }
          { actions := bothFlags, artifacts := ctx0.artifacts }
          (Converted.str (inputRequiredPrompt agent_name) :: irExtra msg)
          (some ⟨tid, some ⟨.inputRequired, msg⟩, arts⟩)
          (mkRequest message ftid fsid fmid { st0 with agent := some agent_name }) := by
    unfold send_task
    rw [if_pos hreg]
    rfl
  rw [hsend, mkOutcome_eq _ _ _ _ _ hflat]
  refine ⟨⟨(Converted.str (inputRequiredPrompt agent_name) :: irExtra msg) ++ vsf,
    rfl, ?_⟩, hf rfl, rfl⟩
  simp

/-- C2 witness: a concrete INPUT_REQUIRED response leaves the session active
with both flags set. -/
theorem send_task_input_required_ok_witness :
    (send_task ["A"] (some ⟨"t1", some ⟨.inputRequired, none⟩, []⟩)
        "A" "m" "f" "s" "g" {} {}).actions = bothFlags
    ∧ (send_task ["A"] (some ⟨"t1", some ⟨.inputRequired, none⟩, []⟩)
        "A" "m" "f" "s" "g" {} {}).state.session_active = some true :=
  ⟨(send_task_input_required_ok ["A"] "A" "m" "f" "s" "g" "t1" none [] {} {}
      (by decide)).2.1,
   (send_task_input_required_ok ["A"] "A" "m" "f" "s" "g" "t1" none [] {} {}
      (by decide)).2.2⟩

/-- C3 counterexample: a COMPLETED task response does not leave `task_id`
unset; `send_task` writes the task id it used into the session state, so the
next call would reuse it. -/
theorem send_task_completed_task_id_cex :
    (send_task ["Planner Agent"]
        (some ⟨"task-1", some ⟨.completed, none⟩, []⟩)
        "Planner Agent" "m" "fresh-task" "fs" "fm" {} {}).state.task_id =
      some "fresh-task"
    ∧ some "fresh-task" ≠ (none : Option String) := by
  decide

/-- C3 (amended): for a registered agent, a COMPLETED task response sets
`session_active` to false but persists the task id used for the call under
`task_id` in the session state, so the next call in the same session reuses
it instead of generating a fresh one. -/
theorem send_task_completed_state (registry : List String)
    (agent_name message ftid fsid fmid tid : String) (msg : Option Msg)
    (arts : List Artifact) (st0 : SessionState) (ctx0 : ToolContextState)
    (hreg : agent_name ∈ registry) :
    (send_task registry (some ⟨tid, some ⟨.completed, msg⟩, arts⟩)
        agent_name message ftid fsid fmid st0 ctx0).state.session_active =
      some false
    ∧ (send_task registry (some ⟨tid, some ⟨.completed, msg⟩, arts⟩)
        agent_name message ftid fsid fmid st0 ctx0).state.task_id =
      some (st0.task_id.getD ftid) := by
  rw [send_task_else_state registry agent_name message ftid fsid fmid tid
    .completed msg arts st0 ctx0 hreg (by decide) (by decide) (by decide)]
  exact ⟨rfl, rfl⟩

/-- C3 witness: concrete COMPLETED response, fresh session. -/
theorem send_task_completed_state_witness :
    (send_task ["A"] (some ⟨"t1", some ⟨.completed, none⟩, []⟩)
        "A" "m" "f" "s" "g" {} {}).state.session_active = some false :=
  (send_task_completed_state ["A"] "A" "m" "f" "s" "g" "t1" none [] {} {}
    (by decide)).1

/-- C4: for every status state other than INPUT_REQUIRED, CANCELED and
FAILED (i.e. WORKING, COMPLETED, SUBMITTED and also UNKNOWN), `send_task`
persists the task id used for the call under `task_id` in the session state,
and a call made with a session state whose `task_id` is set sends the request
with exactly that id. -/
theorem send_task_persists_task_id (registry : List String)
    (agent_name message ftid fsid fmid tid : String) (s : TaskState)
    (msg : Option Msg) (arts : List Artifact)
    (st0 : SessionState) (ctx0 : ToolContextState)
    (hreg : agent_name ∈ registry)
    (h1 : s ≠ .inputRequired) (h2 : s ≠ .canceled) (h3 : s ≠ .failed) :
    ((send_task registry (some ⟨tid, some ⟨s, msg⟩, arts⟩)
        agent_name message ftid fsid fmid st0 ctx0).state.task_id =
      some (st0.task_id.getD ftid))
    ∧ (∀ (x : String) (st2 : SessionState) (remote2 : Option Task),
        st2.task_id = some x →
        Option.map TaskSendParams.id
            (send_task registry remote2 agent_name message ftid fsid fmid
              st2 ctx0).request = some x) := by
  constructor
  · rw [send_task_else_state registry agent_name message ftid fsid fmid tid
      s msg arts st0 ctx0 hreg h1 h2 h3]
  · intro x st2 remote2 hx
    rw [send_task_sends_request registry remote2 agent_name message ftid fsid
      fmid st2 ctx0 hreg]
    simp [mkRequest, hx]

/-- C4 witness: a WORKING response persists the fresh task id, and a session
whose `task_id` is "X" sends a request with id "X". -/
theorem send_task_persists_task_id_witness :
    ((send_task ["A"] (some ⟨"t1", some ⟨.working, none⟩, []⟩)
        "A" "m" "f" "s" "g" {} {}).state.task_id = some "f")
    ∧ (Option.map TaskSendParams.id
        (send_task ["A"] none "A" "m" "f" "s" "g" { task_id := some "X" } {}).request
      = some "X") :=
  ⟨(send_task_persists_task_id ["A"] "A" "m" "f" "s" "g" "t1" .working none []
      {} {} (by decide) (by decide) (by decide) (by decide)).1,
   (send_task_persists_task_id ["A"] "A" "m" "f" "s" "g" "t1" .working none []
      {} {} (by decide) (by decide) (by decide) (by decide)).2
     "X" { task_id := some "X" } none rfl⟩

/-- C5: calling `send_task` with an agent name that is not in the registry of
remote agent connections fails with the unknown-agent error before any
session-state mutation, flag change, artifact save or network call: the
whole outcome is the untouched input state with the error, and no request is
sent. -/
theorem send_task_unknown_agent (registry : List String) (remote : Option Task)
    (agent_name message ftid fsid fmid : String)
    (st0 : SessionState) (ctx0 : ToolContextState)
    (hreg : agent_name ∉ registry) :
    send_task registry remote agent_name message ftid fsid fmid st0 ctx0 =
      { state := st0, actions := ctx0.actions, artifacts := ctx0.artifacts,
        result := .error (.unknownAgent agent_name), request := none } := by
  simp [send_task, hreg]

/-- C5 witness: a concrete unregistered name. -/
theorem send_task_unknown_agent_witness :
    send_task ["Planner Agent"] none "Ghost Agent" "hi" "t" "s" "m" {} {} =
      { state := {}, actions := {}, artifacts := [],
        result := .error (.unknownAgent "Ghost Agent"), request := none } :=
  send_task_unknown_agent ["Planner Agent"] none "Ghost Agent" "hi" "t" "s" "m"
    {} {} (by decide)

/-- C6: `convert_part` is total: every part shape (text, data, file with
bytes, file without bytes, unrecognized type) produces a value and no
exception escapes; in particular a file part whose bytes fail to decode
yields the error-placeholder string instead of propagating the decode
exception. -/
theorem convert_part_total_claim :
    (∀ (p : Part) (ctx : ToolContextState), ∃ r, convert_part p ctx = .ok r)
    ∧ (∀ (f : FileContent) (ctx : ToolContextState) (b : String),
        f.bytes = some b → b64decode b = none →
        convert_part (.file f) ctx =
          .ok (ctx, .str ("Error processing file " ++ f.name ++ ": Invalid data."))) := by
  constructor
  · intro p ctx
    obtain ⟨ctx2, v, h, _⟩ := convert_part_ok p ctx
    exact ⟨(ctx2, v), h⟩
  · intro f ctx b hb hd
    obtain ⟨name, mt, bytes⟩ := f
    simp only at hb
    subst hb
    simp [convert_part, hd]

/-- C6 witness: the three-character string "abc" is invalid base64, and the
file part carrying it converts to the error-placeholder string. -/
theorem convert_part_total_claim_witness :
    convert_part (.file ⟨"f1", "text/plain", some "abc"⟩) {} =
      .ok ({}, .str ("Error processing file " ++ "f1" ++ ": Invalid data.")) :=
  convert_part_total_claim.2 ⟨"f1", "text/plain", some "abc"⟩ {} "abc" rfl
    (by decide)

/-- C7: for a registered agent, when the remote response task object or its
status is absent, `send_task` does not raise: it sets `session_active` to
false and returns an ok result list headed by the diagnostic string saying
the task might not have been initiated. -/
theorem send_task_invalid_task_soft (registry : List String)
    (agent_name message ftid fsid fmid tid : String) (arts : List Artifact)
    (st0 : SessionState) (ctx0 : ToolContextState)
    (hreg : agent_name ∈ registry) :
    ((send_task registry none agent_name message ftid fsid fmid st0 ctx0).result =
        .ok [invalidTaskDiag agent_name]
      ∧ (send_task registry none agent_name message ftid fsid fmid
          st0 ctx0).state.session_active = some false)
    ∧ (∃ vs, (send_task registry (some ⟨tid, none, arts⟩)
          agent_name message ftid fsid fmid st0 ctx0).result =
        .ok (invalidTaskDiag agent_name :: vs)
      ∧ (send_task registry (some ⟨tid, none, arts⟩)
          agent_name message ftid fsid fmid st0 ctx0).state.session_active =
        some false) := by
  have hflatn : flattenTask none ctx0 = .ok (ctx0, []) := rfl
  have hsendn :
      send_task registry none agent_name message ftid fsid fmid st0 ctx0 =
        mkOutcome { st0 with agent := some agent_name, session_active := some false }
          ctx0 [invalidTaskDiag agent_name] none
          (mkRequest message ftid fsid fmid { st0 with agent := some agent_name }) := by
    unfold send_task
    rw [if_pos hreg]
  obtain ⟨ctx2, vsf, hflat, _⟩ := flattenTask_ok (some ⟨tid, none, arts⟩) ctx0
  have hsends :
      send_task registry (some ⟨tid, none, arts⟩) agent_name message ftid fsid
          fmid st0 ctx0 =
        mkOutcome { st0 with agent := some agent_name, session_active := some false }
          ctx0 [invalidTaskDiag agent_name] (some ⟨tid, none, arts⟩)
          (mkRequest message ftid fsid fmid { st0 with agent := some agent_name }) := by
    unfold send_task
    rw [if_pos hreg]
  refine ⟨⟨?_, ?_⟩, ⟨vsf, ?_, ?_⟩⟩
  · rw [hsendn, mkOutcome_eq _ _ _ _ _ hflatn]
    simp
  · rw [hsendn, mkOutcome_state]
  · rw [hsends, mkOutcome_eq _ _ _ _ _ hflat]
    simp
  · rw [hsends, mkOutcome_state]

/-- C7 witness: a missing task object returns the diagnostic and closes the
session. -/
theorem send_task_invalid_task_soft_witness :
    (send_task ["A"] none "A" "m" "f" "s" "g" {} {}).result =
      .ok [invalidTaskDiag "A"] :=
  (send_task_invalid_task_soft ["A"] "A" "m" "f" "s" "g" "t1" [] {} {}
    (by decide)).1.1

/-- C8: in the non-raising, non-INPUT_REQUIRED branch the result list is
exactly the status-message parts followed by every artifact's parts, all put
through the part-conversion rule; on the stub COMPLETED response carrying one
artifact with the text part "Done" and no status message, the result is
exactly the one-element list with "Done". -/
theorem send_task_flattens_parts (registry : List String)
    (agent_name message ftid fsid fmid tid : String) (s : TaskState)
    (msg : Option Msg) (arts : List Artifact)
    (st0 : SessionState) (ctx0 : ToolContextState)
    (hreg : agent_name ∈ registry)
    (h1 : s ≠ .inputRequired) (h2 : s ≠ .canceled) (h3 : s ≠ .failed) :
    (∃ ctxA ctxB vs1 vs2,
      convert_parts (messageParts msg) ctx0 = .ok (ctxA, vs1) ∧
      convertArtifactList arts ctxA = .ok (ctxB, vs2) ∧
      (send_task registry (some ⟨tid, some ⟨s, msg⟩, arts⟩)
          agent_name message ftid fsid fmid st0 ctx0).result = .ok (vs1 ++ vs2))
    ∧ ((send_task ["Planner Agent"]
        (some ⟨"task-1", some ⟨.completed, none⟩, [⟨[Part.text "Done"]⟩]⟩)
        "Planner Agent" "Plan my evening" "t" "s" "m" {} {}).result =
      .ok [Converted.str "Done"]) := by
  constructor
  · obtain ⟨ctxA, vs1, hA, _⟩ := convert_parts_ok (messageParts msg) ctx0
    obtain ⟨ctxB, vs2, hB, _⟩ := convertArtifactList_ok arts ctxA
    refine ⟨ctxA, ctxB, vs1, vs2, hA, hB, ?_⟩
    exact send_task_else_result registry agent_name message ftid fsid fmid tid
      s msg arts st0 ctx0 hreg h1 h2 h3 (flattenTask_eq tid s msg arts ctx0 hA hB)
  · decide

/-- C8 witness: the stub example from the claim evaluates to exactly
the list holding "Done". -/
theorem send_task_flattens_parts_witness :
    (send_task ["Planner Agent"]
        (some ⟨"task-1", some ⟨.completed, none⟩, [⟨[Part.text "Done"]⟩]⟩)
        "Planner Agent" "Plan my evening" "t" "s" "m" {} {}).result =
      .ok [Converted.str "Done"] :=
  (send_task_flattens_parts ["A"] "A" "m" "f" "s" "g" "t1" .completed none []
    {} {} (by decide) (by decide) (by decide) (by decide)).2

/-- C9: an INPUT_REQUIRED response whose status message holds a text part
returns the text of the first text part at least twice: once appended by the
INPUT_REQUIRED branch and once more by the unconditional flattening of the
status-message parts. -/
theorem send_task_input_required_duplicate (registry : List String)
    (agent_name message ftid fsid fmid tid role s : String)
    (parts : List Part) (arts : List Artifact)
    (st0 : SessionState) (ctx0 : ToolContextState)
    (hreg : agent_name ∈ registry)
    (hft : firstTextPart parts = some s) :
    ∃ vs l1 l2 l3,
      (send_task registry
          (some ⟨tid, some ⟨.inputRequired, some ⟨role, parts⟩⟩, arts⟩)
          agent_name message ftid fsid fmid st0 ctx0).result = .ok vs
      ∧ vs = (l1 ++ (Converted.str s :: l2)) ++ (Converted.str s :: l3) := by
  obtain ⟨ctxA, vs1, hA, _⟩ :=
    convert_parts_ok parts { actions := bothFlags, artifacts := ctx0.artifacts }
  obtain ⟨ctxB, vs2, hB, _⟩ := convertArtifactList_ok arts ctxA
  have hA2 : convert_parts (messageParts (some ⟨role, parts⟩))
      { actions := bothFlags, artifacts := ctx0.artifacts } = .ok (ctxA, vs1) := hA
  have hflat := flattenTask_eq tid .inputRequired (some ⟨role, parts⟩) arts
    { actions := bothFlags, artifacts := ctx0.artifacts } hA2 hB
  have hsend :
      send_task registry
          (some ⟨tid, some ⟨.inputRequired, some ⟨role, parts⟩⟩, arts⟩)
          agent_name message ftid fsid fmid st0 ctx0 =
        mkOutcome
          { st0 with agent := some agent_name, session_active := some true }
          { actions := bothFlags, artifacts := ctx0.artifacts }
          (Converted.str (inputRequiredPrompt agent_name)
            :: irExtra (some ⟨role, parts⟩))
          (some ⟨tid, some ⟨.inputRequired, some ⟨role, parts⟩⟩, arts⟩)
          (mkRequest message ftid fsid fmid { st0 with agent := some agent_name }) := by
    unfold send_task
    rw [if_pos hreg]
    rfl
  have hex : irExtra (some ⟨role, parts⟩) = [Converted.str s] := by
    simp [irExtra, firstText, hft]
  obtain ⟨a, b, hsplit⟩ := convert_parts_firstText_split parts s
    { actions := bothFlags, artifacts := ctx0.artifacts } hft hA
  refine ⟨(Converted.str (inputRequiredPrompt agent_name)
      :: irExtra (some ⟨role, parts⟩)) ++ (vs1 ++ vs2),
    [Converted.str (inputRequiredPrompt agent_name)], a, b ++ vs2, ?_, ?_⟩
  · rw [hsend, mkOutcome_eq _ _ _ _ _ hflat]
  · rw [hex, hsplit]
    simp

/-- C9 witness: a concrete INPUT_REQUIRED response with text "Need more"
yields a result list in which "Need more" occurs twice. -/
theorem send_task_input_required_duplicate_witness :
    ∃ vs l1 l2 l3,
      (send_task ["A"]
          (some ⟨"t1", some ⟨.inputRequired, some ⟨"agent", [Part.text "Need more"]⟩⟩, []⟩)
          "A" "m" "f" "s" "g" {} {}).result = .ok vs
      ∧ vs = (l1 ++ (Converted.str "Need more" :: l2))
          ++ (Converted.str "Need more" :: l3) :=
  send_task_input_required_duplicate ["A"] "A" "m" "f" "s" "g" "t1" "agent"
    "Need more" [Part.text "Need more"] [] {} {} (by decide) rfl

/-- C10: when `send_task` raises because the task state is CANCELED or
FAILED, the session state visible after the raise has already been mutated:
`agent` holds the requested agent name and `session_active` is false, so the
raise is not atomic with respect to session state. -/
theorem send_task_raise_after_mutation (registry : List String)
    (agent_name message ftid fsid fmid tid : String) (msg : Option Msg)
    (arts : List Artifact) (st0 : SessionState) (ctx0 : ToolContextState)
    (hreg : agent_name ∈ registry) :
    ((send_task registry (some ⟨tid, some ⟨.canceled, msg⟩, arts⟩)
        agent_name message ftid fsid fmid st0 ctx0).state.agent = some agent_name
      ∧ (send_task registry (some ⟨tid, some ⟨.canceled, msg⟩, arts⟩)
          agent_name message ftid fsid fmid st0 ctx0).state.session_active =
        some false
      ∧ ∃ e, (send_task registry (some ⟨tid, some ⟨.canceled, msg⟩, arts⟩)
          agent_name message ftid fsid fmid st0 ctx0).result = .error e)
    ∧ ((send_task registry (some ⟨tid, some ⟨.failed, msg⟩, arts⟩)
        agent_name message ftid fsid fmid st0 ctx0).state.agent = some agent_name
      ∧ (send_task registry (some ⟨tid, some ⟨.failed, msg⟩, arts⟩)
          agent_name message ftid fsid fmid st0 ctx0).state.session_active =
        some false
      ∧ ∃ e, (send_task registry (some ⟨tid, some ⟨.failed, msg⟩, arts⟩)
          agent_name message ftid fsid fmid st0 ctx0).result = .error e) := by
  refine ⟨⟨?_, ?_, ?_⟩, ⟨?_, ?_, ?_⟩⟩ <;> simp [send_task, hreg, terminalStates]

/-- C10 witness: starting from an empty session state, the CANCELED raise
leaves a mutated state behind. -/
theorem send_task_raise_after_mutation_witness :
    ((send_task ["A"] (some ⟨"t1", some ⟨.canceled, none⟩, []⟩)
        "A" "m" "f" "s" "g" {} {}).state.agent = some "A")
    ∧ ((send_task ["A"] (some ⟨"t1", some ⟨.canceled, none⟩, []⟩)
        "A" "m" "f" "s" "g" {} {}).state ≠ ({} : SessionState)) :=
  ⟨(send_task_raise_after_mutation ["A"] "A" "m" "f" "s" "g" "t1" none [] {} {}
      (by decide)).1.1,
   by decide⟩

end Host
